import Mathlib

/-!
Verification of `src/02_Creational_Patterns/singleton_exercise.py`.

The Python program is:

  def is_singleton(factory):
      x = factory()
      y = factory()
      return x is y

  class Evaluate(TestCase):
      def test_exercise(self):
          obj = [1, 2, 3]
          self.assertTrue(is_singleton(lambda: obj))
          self.assertFalse(is_singleton(lambda: deepcopy(obj)))

Shallow embedding of Python reference semantics: object identity is
modelled by an explicit heap of addresses (`Ref := Nat`); a value of
type `α` lives at an address, and the Python `is` operator is address
equality.  A zero-argument Python callable may allocate, so a producer
is a state-threading function `σ → Ref × σ`; for producers over the
heap, `σ = Heap α`.  `is_singleton` is polymorphic in the state, just
as the Python function works with any factory.
-/

/-- A Python object reference: an address into the heap. -/
abbrev Ref := Nat

/-- A heap of Python objects holding values of type `α`: contents at each
address, plus the next fresh address for allocation. -/
structure Heap (α : Type) where
  data : Ref → α
  next : Ref

/-- A zero-argument Python callable returning an object of type `α`:
it may allocate, so it threads the heap. -/
abbrev Producer (α : Type) := Heap α → Ref × Heap α

/-- `is_singleton(factory)`: call the factory twice, in order, and compare
the two results with `is` (address equality).  State-polymorphic, mirroring
that the Python function works with any factory over any ambient state. -/
def is_singleton {σ : Type} (factory : σ → Ref × σ) (s : σ) : Bool × σ :=
  let p1 := factory s
  let p2 := factory p1.2
  (p1.1 == p2.1, p2.2)

/-- `copy.deepcopy(r)`: allocate a fresh address holding a copy of the
contents at `r`.  The fresh address is `h.next`, distinct from every
previously allocated address. -/
def deepcopy {α : Type} (r : Ref) (h : Heap α) : Ref × Heap α :=
  (h.next,
   { data := fun a => if a = h.next then h.data r else h.data a,
     next := h.next + 1 })

/-- `lambda: obj` — a closure returning one fixed captured reference,
allocating nothing. -/
def constProducer {α : Type} (r : Ref) : Producer α :=
  fun h => (r, h)

/-- `lambda: deepcopy(obj)` — a closure deep-copying a fixed captured
reference on every call. -/
def copyProducer {α : Type} (r : Ref) : Producer α :=
  fun h => deepcopy r h

/-- The test's heap: `obj = [1, 2, 3]` stored at address `0`, with `1`
the next fresh address. -/
def heap0 : Heap (List Int) :=
  { data := fun a => if a = 0 then [1, 2, 3] else [], next := 1 }

/-- A heap of booleans, used to compare producers over different value
types. -/
def heapB : Heap Bool :=
  { data := fun _ => true, next := 0 }

/-- Instrumented producer: behaves like `f` and additionally records every
returned reference, in call order, in a trace list carried in the state. -/
def traced {σ : Type} (f : σ → Ref × σ) : σ × List Ref → Ref × (σ × List Ref) :=
  fun s =>
    let p := f s.1
    (p.1, (p.2, s.2 ++ [p.1]))

/-- A producer has deterministic identity behaviour when every pair of
consecutive invocations stands in the same identity relation, whatever the
starting state. -/
def identityDeterministic {σ : Type} (f : σ → Ref × σ) : Prop :=
  ∀ s t : σ, ((f s).1 = (f (f s).2).1) ↔ ((f t).1 = (f (f t).2).1)

/-- A fallible zero-argument Python callable: each call either raises an
exception `ε` or returns a reference and the updated state. -/
abbrev ProducerE (σ ε : Type) := σ → Except ε (Ref × σ)

/-- `is_singleton` applied to a fallible factory, with Python's implicit
exception propagation: the function has no handler, so an exception raised
by either factory call aborts the whole call unchanged. -/
def is_singletonE {σ ε : Type} (factory : ProducerE σ ε) (s : σ) :
    Except ε (Bool × σ) :=
  match factory s with
  | .error e => .error e
  | .ok (x, s1) =>
    match factory s1 with
    | .error e => .error e
    | .ok (y, s2) => .ok (x == y, s2)

/-! Helper lemmas shared by the claim theorems. -/

theorem is_singleton_fst {σ : Type} (f : σ → Ref × σ) (s : σ) :
    (is_singleton f s).1 = decide ((f s).1 = (f (f s).2).1) := by
  simp only [is_singleton]
  rw [Bool.eq_iff_iff]
  simp

theorem is_singleton_snd {σ : Type} (f : σ → Ref × σ) (s : σ) :
    (is_singleton f s).2 = (f (f s).2).2 := by
  simp [is_singleton]

/-- Claim C1: `is_singleton` returns true iff the value of the first
invocation and the value of the second invocation are reference-identical;
in particular it returns false when the two values have equal contents in
the final heap but are distinct instances. -/
theorem is_singleton_identity_spec {α : Type} (f : Producer α) (h : Heap α) :
    ((is_singleton f h).1 = true ↔ (f h).1 = (f (f h).2).1) ∧
    ((f h).1 ≠ (f (f h).2).1 →
      (f (f h).2).2.data (f h).1 = (f (f h).2).2.data (f (f h).2).1 →
      (is_singleton f h).1 = false) := by
  constructor
  · rw [is_singleton_fst]
    simp
  · intro hne _
    rw [is_singleton_fst]
    simpa using hne

/-- Witness for C1: the deep-copying producer of the test yields two
distinct references with equal contents, and `is_singleton` returns false. -/
theorem is_singleton_identity_spec_witness :
    (copyProducer 0 heap0).1 ≠ (copyProducer 0 (copyProducer 0 heap0).2).1 ∧
    (is_singleton (copyProducer 0) heap0).1 = false :=
  ⟨by decide, (is_singleton_identity_spec (copyProducer 0) heap0).2 (by decide) rfl⟩

/-- Claim C2: for every producer returning one fixed captured reference,
`is_singleton` returns true; in particular for the test's `lambda: obj`
with `obj = [1, 2, 3]`. -/
theorem is_singleton_const_true {α : Type} (r : Ref) (h : Heap α) :
    (is_singleton (constProducer r) h).1 = true ∧
    (is_singleton (constProducer 0) heap0).1 = true := by
  constructor
  · simp [is_singleton, constProducer]
  · simp [is_singleton, constProducer]

/-- Claim C3: for every producer deep-copying an existing instance on each
call, `is_singleton` returns false; in particular for the test's
`lambda: deepcopy(obj)` with `obj = [1, 2, 3]`. -/
theorem is_singleton_deepcopy_false {α : Type} (r : Ref) (h : Heap α) :
    (is_singleton (copyProducer r) h).1 = false ∧
    (is_singleton (copyProducer 0) heap0).1 = false := by
  have gen : ∀ (β : Type) (q : Ref) (hp : Heap β),
      (is_singleton (copyProducer q) hp).1 = false := by
    intro β q hp
    simp [is_singleton, copyProducer, deepcopy]
  exact ⟨gen α r h, gen (List Int) 0 heap0⟩

/-- Claim C4: `is_singleton` invokes its producer exactly twice — the
instrumented run records exactly the trace `[x, y]` with `x` the first
invocation's value and `y` the second's — and the instrumentation changes
neither the boolean result nor the final state. -/
theorem is_singleton_invokes_twice {σ : Type} (f : σ → Ref × σ) (s : σ) :
    (is_singleton (traced f) (s, [])).2.2 = [(f s).1, (f (f s).2).1] ∧
    (is_singleton (traced f) (s, [])).1 = (is_singleton f s).1 ∧
    (is_singleton (traced f) (s, [])).2.1 = (is_singleton f s).2 := by
  simp [is_singleton, traced]

/-- Claim C5: for a producer with deterministic identity behaviour, running
`is_singleton` again after a previous check yields the same boolean. -/
theorem is_singleton_idempotent {σ : Type} (f : σ → Ref × σ) (s : σ)
    (hdet : identityDeterministic f) :
    (is_singleton f (is_singleton f s).2).1 = (is_singleton f s).1 := by
  rw [is_singleton_fst, is_singleton_fst]
  exact decide_eq_decide.mpr (hdet _ _)

/-- Witness for C5: the test's captured-object producer is identity
deterministic, and repeated checks agree. -/
theorem is_singleton_idempotent_witness :
    (is_singleton (constProducer 0 : Producer (List Int))
        ((is_singleton (constProducer 0 : Producer (List Int)) heap0).2)).1
      = (is_singleton (constProducer 0 : Producer (List Int)) heap0).1 :=
  is_singleton_idempotent (constProducer 0 : Producer (List Int)) heap0
    (fun _ _ => Iff.rfl)

/-- Claim C6: `is_singletonE` itself raises nothing — a failure of either
producer call propagates unchanged as the overall result, and when both
calls succeed the result is the ordinary identity check. -/
theorem is_singletonE_error_propagation {σ ε : Type} (f : ProducerE σ ε) (s : σ) :
    (∀ e, f s = .error e → is_singletonE f s = .error e) ∧
    (∀ x s1 e, f s = .ok (x, s1) → f s1 = .error e →
      is_singletonE f s = .error e) ∧
    (∀ x s1 y s2, f s = .ok (x, s1) → f s1 = .ok (y, s2) →
      is_singletonE f s = .ok (x == y, s2)) := by
  refine ⟨?_, ?_, ?_⟩
  · intro e he
    simp [is_singletonE, he]
  · intro x s1 e h1 h2
    simp [is_singletonE, h1, h2]
  · intro x s1 y s2 h1 h2
    simp [is_singletonE, h1, h2]

/-- Witness for C6: a producer that always fails with error `7` makes
`is_singletonE` return exactly that error. -/
theorem is_singletonE_error_propagation_witness :
    is_singletonE (fun _ : Unit => (.error 7 : Except Nat (Ref × Unit))) ()
      = .error 7 :=
  (is_singletonE_error_propagation (fun _ : Unit => .error 7) ()).1 7 rfl

/-- Claim C7: `is_singleton` performs no side effects of its own — the
final state is exactly the state after the two producer calls, and for a
state-preserving producer the state is returned unchanged, so each check is
stateless and independent. -/
theorem is_singleton_frame {σ : Type} (f : σ → Ref × σ) (s : σ) :
    (is_singleton f s).2 = (f (f s).2).2 ∧
    ((∀ t, (f t).2 = t) → (is_singleton f s).2 = s) := by
  refine ⟨is_singleton_snd f s, ?_⟩
  intro hp
  rw [is_singleton_snd, hp, hp]

/-- Witness for C7: the captured-object producer preserves the heap, and
`is_singleton` leaves the test heap untouched. -/
theorem is_singleton_frame_witness :
    (is_singleton (constProducer 0 : Producer (List Int)) heap0).2 = heap0 :=
  (is_singleton_frame (constProducer 0 : Producer (List Int)) heap0).2
    (fun _ => rfl)

/-- Claim C8: `is_singleton` is total — for producers over every value type
`α` its result is a boolean, computed by decidable address comparison alone,
never by any equality on the stored values. -/
theorem is_singleton_returns_bool {α : Type} (f : Producer α) (h : Heap α) :
    ((is_singleton f h).1 = true ∨ (is_singleton f h).1 = false) ∧
    (is_singleton f h).1 = decide ((f h).1 = (f (f h).2).1) := by
  refine ⟨?_, is_singleton_fst f h⟩
  cases hb : (is_singleton f h).1
  · exact Or.inr rfl
  · exact Or.inl rfl

/-- Claim C9: content-insensitivity — two producers (even over different
value types and heaps) whose invocation pairs stand in the same identity
relation receive the same boolean from `is_singleton`. -/
theorem is_singleton_content_insensitive {α β : Type} (f : Producer α)
    (g : Producer β) (h : Heap α) (h' : Heap β)
    (hrel : ((f h).1 = (f (f h).2).1) ↔ ((g h').1 = (g (g h').2).1)) :
    (is_singleton f h).1 = (is_singleton g h').1 := by
  rw [is_singleton_fst, is_singleton_fst]
  exact decide_eq_decide.mpr hrel

/-- Witness for C9: a list-valued producer and a boolean-valued producer
with different contents but matching identity behaviour get the same
result. -/
theorem is_singleton_content_insensitive_witness :
    (is_singleton (constProducer 1 : Producer (List Int)) heap0).1
      = (is_singleton (constProducer 5 : Producer Bool) heapB).1 :=
  is_singleton_content_insensitive (constProducer 1) (constProducer 5)
    heap0 heapB (iff_of_true rfl rfl)
